import Mathlib

/-! Verification of the travel-plan optimizer of `agents/travel/travel_logic.py`.

Datetimes are modelled as integer counts of seconds; the calendar date of a
datetime is its day number, obtained by Euclidean division by 86400, and the
time of day is the remainder.  The `strptime`-style string parsing of the
source is modelled over the character lists of the input strings; prices and
ratings are modelled as rationals. -/

set_option maxRecDepth 4000

namespace TravelLogic

/-- The calendar date (civil day number) of a datetime given in seconds,
modelling `datetime.date()`. -/
def dateOf (t : Int) : Int := t / 86400

/-- The time of day, in seconds past midnight, modelling `datetime.time()`. -/
def timeOf (t : Int) : Int := t % 86400

/-- `datetime.combine`: a date (day number) and a time of day make a datetime. -/
def combineDT (d t : Int) : Int := 86400 * d + t

/-- Split a character list into its leading run of digits and the rest. -/
def spanDigits : List Char → List Char × List Char
  | [] => ([], [])
  | c :: cs =>
    if c.isDigit then ((c :: (spanDigits cs).1), (spanDigits cs).2)
    else ([], c :: cs)

/-- Numeric value of a list of digit characters. -/
def digitsVal (ds : List Char) : Nat := ds.foldl (fun a c => 10 * a + (c.toNat - 48)) 0

/-- Parse a leading run of one or two digits whose value lies in `[lo, hi]`
(modelling a one-to-two-digit `strptime` numeric directive together with the
range check performed by the `datetime` constructor). -/
def parseNum2 (lo hi : Nat) (s : List Char) : Option (Nat × List Char) :=
  if (spanDigits s).1.length = 1 ∨ (spanDigits s).1.length = 2 then
    if lo ≤ digitsVal (spanDigits s).1 ∧ digitsVal (spanDigits s).1 ≤ hi then
      some (digitsVal (spanDigits s).1, (spanDigits s).2)
    else none
  else none

/-- Consume one expected literal character. -/
def expectChar (c : Char) : List Char → Option (List Char)
  | [] => none
  | x :: rest => if x = c then some rest else none

/-- Consume one or more whitespace characters (a literal blank in a
`strptime` format matches any positive amount of whitespace). -/
def expectWS : List Char → Option (List Char)
  | [] => none
  | x :: rest => if x.isWhitespace then some (rest.dropWhile Char.isWhitespace) else none

/-- Gregorian leap-year test. -/
def isLeap (y : Nat) : Bool := y % 4 == 0 && (y % 100 != 0 || y % 400 == 0)

/-- Number of days in a month of the proleptic Gregorian calendar. -/
def daysInMonth (y m : Nat) : Nat :=
  if m = 2 then (if isLeap y then 29 else 28)
  else if m = 4 ∨ m = 6 ∨ m = 9 ∨ m = 11 then 30
  else 31

/-- Civil day number of a Gregorian date (days-from-civil algorithm; the
epoch offset is irrelevant, only differences and order of day numbers are
used by the timing rules). -/
def daysFromCivil (y m d : Nat) : Int :=
  let y2 := if m ≤ 2 then y - 1 else y
  let era := y2 / 400
  let yoe := y2 % 400
  let mp := (m + 9) % 12
  let doy := (153 * mp + 2) / 5 + (d - 1)
  let doe := yoe * 365 + yoe / 4 - yoe / 100 + doy
  ((era * 146097 + doe : Nat) : Int)

/-- Parse the leading `%Y-%m-%d` of a character list (exactly four year
digits with year at least 1, one or two month and day digits, with the day
validated against the month as `datetime` does), returning the civil day
number and the remaining characters. -/
def parseYMD (s : List Char) : Option (Int × List Char) :=
  let yp := spanDigits s
  if yp.1.length = 4 ∧ 1 ≤ digitsVal yp.1 then
    match expectChar '-' yp.2 with
    | none => none
    | some r1 =>
      match parseNum2 1 12 r1 with
      | none => none
      | some (m, r2) =>
        match expectChar '-' r2 with
        | none => none
        | some r3 =>
          match parseNum2 1 31 r3 with
          | none => none
          | some (d, r4) =>
            if 1 ≤ d ∧ d ≤ daysInMonth (digitsVal yp.1) m then
              some (daysFromCivil (digitsVal yp.1) m d, r4)
            else none
  else none

/-- Parse a complete `%H:%M` string into seconds past midnight. -/
def parseTimeHM (s : String) : Option Int :=
  match parseNum2 0 23 s.toList with
  | none => none
  | some (h, r1) =>
    match expectChar ':' r1 with
    | none => none
    | some r2 =>
      match parseNum2 0 59 r2 with
      | none => none
      | some (m, r3) =>
        if r3 = [] then some ((3600 * h + 60 * m : Nat) : Int) else none

/-- Substring test on character lists. -/
def hasSubstr (pat : List Char) : List Char → Bool
  | [] => pat.isPrefixOf []
  | c :: rest => pat.isPrefixOf (c :: rest) || hasSubstr pat rest

/-- Python's `"PM" in s.upper() or "AM" in s.upper()`. -/
def containsAMPM (s : String) : Bool :=
  hasSubstr ['P', 'M'] (s.toList.map Char.toUpper) ||
    hasSubstr ['A', 'M'] (s.toList.map Char.toUpper)

/-- Parse a complete `%I:%M %p` string (12-hour clock, case-insensitive
AM/PM as in Python) into seconds past midnight. -/
def parseTime12 (s : String) : Option Int :=
  match parseNum2 1 12 (s.toList.map Char.toUpper) with
  | none => none
  | some (h, r1) =>
    match expectChar ':' r1 with
    | none => none
    | some r2 =>
      match parseNum2 0 59 r2 with
      | none => none
      | some (m, r3) =>
        match expectWS r3 with
        | none => none
        | some r4 =>
          match r4 with
          | ['A', 'M'] => some ((3600 * (if h = 12 then 0 else h) + 60 * m : Nat) : Int)
          | ['P', 'M'] => some ((3600 * (if h = 12 then 12 else h + 12) + 60 * m : Nat) : Int)
          | _ => none

/-- Parse a complete datetime string: `%Y-%m-%d %H:%M` when `isoT` is false,
`%Y-%m-%dT%H:%M` when `isoT` is true, with a trailing `:%S` when `withSecs`
is true. -/
def parseDateTimeFmt (isoT withSecs : Bool) (s : List Char) : Option Int :=
  match parseYMD s with
  | none => none
  | some (day, r1) =>
    match (if isoT then expectChar 'T' r1 else expectWS r1) with
    | none => none
    | some r2 =>
      match parseNum2 0 23 r2 with
      | none => none
      | some (h, r3) =>
        match expectChar ':' r3 with
        | none => none
        | some r4 =>
          match parseNum2 0 59 r4 with
          | none => none
          | some (m, r5) =>
            if withSecs then
              match expectChar ':' r5 with
              | none => none
              | some r6 =>
                match parseNum2 0 59 r6 with
                | none => none
                | some (sec, r7) =>
                  if r7 = [] then
                    some (combineDT day ((3600 * h + 60 * m + sec : Nat) : Int))
                  else none
            else
              if r5 = [] then some (combineDT day ((3600 * h + 60 * m : Nat) : Int))
              else none

/-- A flight offer record (the fields read by the optimizer; a missing key
and a `None` value are both modelled as `none`). -/
structure Flight where
  price : Option ℚ := none
  arrival_time : Option String := none
  deriving DecidableEq

/-- A hotel offer record (the fields read by the optimizer). -/
structure Hotel where
  price : Option ℚ := none
  overall_rating : Option ℚ := none
  rating : Option ℚ := none
  location_rating : Option ℚ := none
  check_in_date : Option String := none
  check_in_time : Option String := none
  deriving DecidableEq

/-- `TRAVEL_HOTEL_CHECKIN_GAP_HOURS` from `config/config.py`
(environment default `"2"`). -/
def TRAVEL_HOTEL_CHECKIN_GAP_HOURS : Int := 2

/-- `MIN_OVERALL_RATING` from `travel_logic.py`. -/
def MIN_OVERALL_RATING : ℚ := 3.7

/-- `MIN_LOCATION_RATING` from `travel_logic.py`. -/
def MIN_LOCATION_RATING : ℚ := 4

/-- `extract_arrival_datetime`: read the flight's `arrival_time` string and
try the formats `%Y-%m-%d %H:%M`, `%Y-%m-%dT%H:%M`, `%Y-%m-%d %H:%M:%S` in
order; a missing, empty or unparseable string gives `none`. -/
def extract_arrival_datetime (flight : Flight) : Option Int :=
  let s := flight.arrival_time.getD ""
  if s = "" then none
  else
    match parseDateTimeFmt false false s.toList with
    | some t => some t
    | none =>
      match parseDateTimeFmt true false s.toList with
      | some t => some t
      | none => parseDateTimeFmt false true s.toList

/-- The check-in date used by `_get_hotel_checkin_datetime`: the hotel's
`check_in_date` parsed as `%Y-%m-%d`, falling back to the reference (flight
arrival) date when the field is missing, empty or unparseable. -/
def checkinDateOf (hotel : Hotel) (reference : Int) : Int :=
  match hotel.check_in_date with
  | none => dateOf reference
  | some s =>
    if s = "" then dateOf reference
    else
      match parseYMD s.toList with
      | some (d, []) => d
      | _ => dateOf reference

/-- The check-in time of day used by `_get_hotel_checkin_datetime`: the
`check_in_time` string (default `"15:00"`), parsed as `%I:%M %p` when it
mentions AM/PM and as `%H:%M` otherwise, defaulting to 15:00 (54000 seconds)
when parsing fails. -/
def checkinTimeOf (hotel : Hotel) : Int :=
  if containsAMPM (hotel.check_in_time.getD "15:00") then
    match parseTime12 (hotel.check_in_time.getD "15:00") with
    | some t => t
    | none => 54000
  else
    match parseTimeHM (hotel.check_in_time.getD "15:00") with
    | some t => t
    | none => 54000

/-- `_get_hotel_checkin_datetime`: combine the check-in date and time.  The
Python body always reaches its final `return datetime.combine(...)`, so the
declared `Optional` result is in fact always a `some`. -/
def getHotelCheckinDatetime (hotel : Hotel) (reference : Int) : Option Int :=
  some (combineDT (checkinDateOf hotel reference) (checkinTimeOf hotel))

/-- `flight_arrival + timedelta(hours=gap_hours)`. -/
def travelerArrival (flight_arrival g : Int) : Int := flight_arrival + 3600 * g

/-- The per-hotel timing test performed by the loop body of
`filter_valid_hotels` (the `late_night_cutoff` variable of the source is
computed but never used, so it is omitted; a hotel with no establishable
check-in instant would be included, per the `None` branch). -/
def hotelIsValid (hotel : Hotel) (flight_arrival g : Int) : Bool :=
  let T := travelerArrival flight_arrival g
  let midnight_cutoff := combineDT (dateOf flight_arrival) 86340
  match getHotelCheckinDatetime hotel flight_arrival with
  | none => true
  | some c =>
    let arrival_date := dateOf T
    let checkin_date := dateOf c
    if arrival_date = checkin_date then
      decide (timeOf c ≤ timeOf T) || decide (T ≤ midnight_cutoff)
    else if checkin_date < arrival_date then
      decide (arrival_date - checkin_date ≤ 1)
    else false

/-- `filter_valid_hotels`: keep the hotels passing the timing test; a
missing `gap_hours` defaults to the configured gap. -/
def filter_valid_hotels (hotels : List Hotel) (flight_arrival : Int)
    (gap_hours : Option Int) : List Hotel :=
  let g := gap_hours.getD TRAVEL_HOTEL_CHECKIN_GAP_HOURS
  hotels.filter (fun h => hotelIsValid h flight_arrival g)

/-- Python's numeric `or`: the left operand unless it is falsy (zero). -/
def numOr (a b : ℚ) : ℚ := if a = 0 then b else a

/-- `hotel.get("overall_rating", 0) or hotel.get("rating", 0) or 0`. -/
def overallRatingOf (hotel : Hotel) : ℚ :=
  numOr (hotel.overall_rating.getD 0) (numOr (hotel.rating.getD 0) 0)

/-- `hotel.get("location_rating", 0) or 0`. -/
def locationRatingOf (hotel : Hotel) : ℚ :=
  numOr (hotel.location_rating.getD 0) 0

/-- The per-hotel test of `filter_hotels_by_rating`: the overall threshold
is required, the location threshold applies only when a positive location
rating exists. -/
def meetsRating (hotel : Hotel) (min_overall_rating min_location_rating : ℚ) : Bool :=
  let overall := overallRatingOf hotel
  let location := locationRatingOf hotel
  decide (min_overall_rating ≤ overall) &&
    (if 0 < location then decide (min_location_rating ≤ location) else true)

/-- `filter_hotels_by_rating`. -/
def filter_hotels_by_rating (hotels : List Hotel)
    (min_overall_rating min_location_rating : ℚ) : List Hotel :=
  hotels.filter (fun h => meetsRating h min_overall_rating min_location_rating)

/-- STEP 1 of `find_cheapest_plan` with its degradation ladder: the strict
rating filter, then the overall-only filter, then all hotels rated at least
3.0, then the full hotel list. -/
def qualityHotels (hotels : List Hotel)
    (min_overall_rating min_location_rating : ℚ) : List Hotel :=
  let q1 := filter_hotels_by_rating hotels min_overall_rating min_location_rating
  if q1 ≠ [] then q1
  else
    let q2 := filter_hotels_by_rating hotels min_overall_rating 0
    if q2 ≠ [] then q2
    else
      let q3 := hotels.filter (fun h => decide ((3 : ℚ) ≤ overallRatingOf h))
      if q3 ≠ [] then q3 else hotels

/-- The travel-plan record built by `find_cheapest_plan` (the source stores
`arrival_time` re-formatted as a string; the instant itself is kept here). -/
structure Plan where
  flight : Flight
  hotel : Hotel
  total_price : ℚ
  gap_hours : Int
  arrival_time : Int
  deriving DecidableEq

/-- `(flight.get("price") or 0) + (hotel.get("price") or 0)`: a missing or
`None` price contributes 0. -/
def pairTotal (flight : Flight) (hotel : Hotel) : ℚ :=
  flight.price.getD 0 + hotel.price.getD 0

/-- The plan dictionary built for one (flight, hotel) pair. -/
def planFor (g a : Int) (flight : Flight) (hotel : Hotel) : Plan :=
  { flight := flight, hotel := hotel, total_price := pairTotal flight hotel,
    gap_hours := g, arrival_time := a }

/-- One step of the inner loop of `find_cheapest_plan`: replace the running
best plan when the pair's total is strictly smaller (`float('inf')` start is
modelled by `none`). -/
def considerHotel (g a : Int) (flight : Flight) (best : Option Plan)
    (hotel : Hotel) : Option Plan :=
  match best with
  | none => some (planFor g a flight hotel)
  | some b =>
    if pairTotal flight hotel < b.total_price then some (planFor g a flight hotel)
    else some b

/-- One step of the outer loop of `find_cheapest_plan`: skip flights with an
unparseable arrival, otherwise scan the timing-valid quality hotels. -/
def considerFlight (g : Int) (quality_hotels : List Hotel)
    (best : Option Plan) (flight : Flight) : Option Plan :=
  match extract_arrival_datetime flight with
  | none => best
  | some a =>
    (filter_valid_hotels quality_hotels a (some g)).foldl (considerHotel g a flight) best

/-- `find_cheapest_plan`. -/
def find_cheapest_plan (flights : List Flight) (hotels : List Hotel)
    (gap_hours : Option Int) (min_overall_rating min_location_rating : ℚ) :
    Option Plan :=
  let g := gap_hours.getD TRAVEL_HOTEL_CHECKIN_GAP_HOURS
  if flights = [] then none
  else if hotels = [] then none
  else
    flights.foldl
      (considerFlight g (qualityHotels hotels min_overall_rating min_location_rating)) none

/-! Helper lemmas about the time model and the parsers. -/

lemma parseNum2_le {lo hi : Nat} {s r : List Char} {v : Nat}
    (h : parseNum2 lo hi s = some (v, r)) : lo ≤ v ∧ v ≤ hi := by
  unfold parseNum2 at h
  split at h
  · split at h
    · simp only [Option.some.injEq, Prod.mk.injEq] at h
      obtain ⟨rfl, rfl⟩ := h
      assumption
    · exact absurd h (by simp)
  · exact absurd h (by simp)

lemma parseTimeHM_bounds {s : String} {t : Int}
    (h : parseTimeHM s = some t) : 0 ≤ t ∧ t ≤ 86340 := by
  unfold parseTimeHM at h
  split at h
  · exact absurd h (by simp)
  · rename_i hv r1 e1
    split at h
    · exact absurd h (by simp)
    · rename_i r2 e2
      split at h
      · exact absurd h (by simp)
      · rename_i mv r3 e3
        split at h
        · obtain ⟨h1, h2⟩ := parseNum2_le e1
          obtain ⟨h3, h4⟩ := parseNum2_le e3
          simp only [Option.some.injEq] at h
          omega
        · exact absurd h (by simp)

lemma parseTime12_bounds {s : String} {t : Int}
    (h : parseTime12 s = some t) : 0 ≤ t ∧ t ≤ 86340 := by
  unfold parseTime12 at h
  split at h
  · exact absurd h (by simp)
  · rename_i hv r1 e1
    split at h
    · exact absurd h (by simp)
    · rename_i r2 e2
      split at h
      · exact absurd h (by simp)
      · rename_i mv r3 e3
        split at h
        · exact absurd h (by simp)
        · rename_i r4 e4
          obtain ⟨h1, h2⟩ := parseNum2_le e1
          obtain ⟨h3, h4⟩ := parseNum2_le e3
          split at h
          · simp only [Option.some.injEq] at h
            split at h <;> omega
          · simp only [Option.some.injEq] at h
            split at h <;> omega
          · exact absurd h (by simp)

/-- The check-in time of day produced by `_get_hotel_checkin_datetime` is a
valid time of day, at most 23:59:00 (86340 seconds). -/
lemma checkinTimeOf_bounds (hotel : Hotel) :
    0 ≤ checkinTimeOf hotel ∧ checkinTimeOf hotel ≤ 86340 := by
  unfold checkinTimeOf
  split
  · split
    · rename_i t ht
      exact parseTime12_bounds ht
    · omega
  · split
    · rename_i t ht
      exact parseTimeHM_bounds ht
    · omega

lemma timeOf_bounds (x : Int) : 0 ≤ timeOf x ∧ timeOf x < 86400 := by
  unfold timeOf; omega

lemma dateOf_mono {a b : Int} (h : a ≤ b) : dateOf a ≤ dateOf b := by
  unfold dateOf; omega

lemma dateOf_combineDT {d t : Int} (h0 : 0 ≤ t) (h1 : t < 86400) :
    dateOf (combineDT d t) = d := by
  unfold dateOf combineDT; omega

lemma timeOf_combineDT {d t : Int} (h0 : 0 ≤ t) (h1 : t < 86400) :
    timeOf (combineDT d t) = t := by
  unfold timeOf combineDT; omega

lemma combineDT_ediv_emod (x : Int) : combineDT (dateOf x) (timeOf x) = x := by
  unfold dateOf timeOf combineDT; omega

/-- The timing test written through the check-in date and time helpers (pure
definitional rearrangement of `hotelIsValid`). -/
lemma hotelIsValid_eq (hotel : Hotel) (a g : Int) :
    hotelIsValid hotel a g =
      (if dateOf (travelerArrival a g) =
          dateOf (combineDT (checkinDateOf hotel a) (checkinTimeOf hotel)) then
        decide (timeOf (combineDT (checkinDateOf hotel a) (checkinTimeOf hotel)) ≤
            timeOf (travelerArrival a g)) ||
          decide (travelerArrival a g ≤ combineDT (dateOf a) 86340)
      else if dateOf (combineDT (checkinDateOf hotel a) (checkinTimeOf hotel)) <
          dateOf (travelerArrival a g) then
        decide (dateOf (travelerArrival a g) -
          dateOf (combineDT (checkinDateOf hotel a) (checkinTimeOf hotel)) ≤ 1)
      else false) := rfl

/-- The timing test with the check-in datetime decomposed into its date and
time-of-day parts. -/
lemma hotelIsValid_cases (hotel : Hotel) (a g : Int) :
    hotelIsValid hotel a g =
      (if dateOf (travelerArrival a g) = checkinDateOf hotel a then
        decide (checkinTimeOf hotel ≤ timeOf (travelerArrival a g)) ||
          decide (travelerArrival a g ≤ combineDT (dateOf a) 86340)
      else if checkinDateOf hotel a < dateOf (travelerArrival a g) then
        decide (dateOf (travelerArrival a g) - checkinDateOf hotel a ≤ 1)
      else false) := by
  have hb := checkinTimeOf_bounds hotel
  rw [hotelIsValid_eq, dateOf_combineDT hb.1 (by omega), timeOf_combineDT hb.1 (by omega)]

/-- When the traveler reaches the hotel strictly after the check-in date,
validity is exactly a delay of at most one day. -/
lemma hotelIsValid_next_day (hotel : Hotel) (a g : Int)
    (h : checkinDateOf hotel a < dateOf (travelerArrival a g)) :
    (hotelIsValid hotel a g = true ↔
      dateOf (travelerArrival a g) - checkinDateOf hotel a ≤ 1) := by
  rw [hotelIsValid_cases, if_neg (by omega), if_pos h]
  simp

/-- When the traveler reaches the hotel strictly before the check-in date,
the hotel is invalid. -/
lemma hotelIsValid_before (hotel : Hotel) (a g : Int)
    (h : dateOf (travelerArrival a g) < checkinDateOf hotel a) :
    hotelIsValid hotel a g = false := by
  rw [hotelIsValid_cases, if_neg (by omega), if_neg (by omega)]

/-- For a nonnegative gap and a check-in date not after the flight-arrival
date, the timing test holds exactly when the traveler reaches the hotel at
most one day after the check-in date. -/
lemma hotelIsValid_iff_le (hotel : Hotel) (a g : Int) (hg : 0 ≤ g)
    (hd : checkinDateOf hotel a ≤ dateOf a) :
    (hotelIsValid hotel a g = true ↔
      dateOf (travelerArrival a g) ≤ checkinDateOf hotel a + 1) := by
  have hb := checkinTimeOf_bounds hotel
  have hTa : a ≤ travelerArrival a g := by unfold travelerArrival; omega
  have hAD : dateOf a ≤ dateOf (travelerArrival a g) := dateOf_mono hTa
  rw [hotelIsValid_cases]
  split
  · rename_i heq
    constructor
    · intro _; omega
    · intro _
      rcases le_or_lt (timeOf (travelerArrival a g)) 86340 with hle | hgt
      · have hD : dateOf (travelerArrival a g) = dateOf a := by omega
        have hcut : travelerArrival a g ≤ combineDT (dateOf a) 86340 := by
          have h2 := combineDT_ediv_emod (travelerArrival a g)
          have h3 := timeOf_bounds (travelerArrival a g)
          unfold combineDT at h2 ⊢
          omega
        simp [hcut]
      · have hct : checkinTimeOf hotel ≤ timeOf (travelerArrival a g) := by omega
        simp [hct]
  · split
    · simp only [decide_eq_true_eq]
      omega
    · constructor
      · intro hf
        exact absurd hf (by simp)
      · intro hle
        omega

/-- Membership in `filter_valid_hotels` unfolded. -/
lemma mem_filter_valid_hotels {hotels : List Hotel} {a : Int} {g : Option Int} {h : Hotel} :
    h ∈ filter_valid_hotels hotels a g ↔
      h ∈ hotels ∧ hotelIsValid h a (g.getD TRAVEL_HOTEL_CHECKIN_GAP_HOURS) = true := by
  unfold filter_valid_hotels
  simp [List.mem_filter]

/-! The selection loop of `find_cheapest_plan`. -/

/-- A plan arising from a candidate pair: a flight of the list with a
parseable arrival, together with a hotel of the candidate set that is
timing-valid for that flight. -/
def IsCandidate (g : Int) (flights : List Flight) (qh : List Hotel) (p : Plan) : Prop :=
  ∃ f ∈ flights, ∃ a, extract_arrival_datetime f = some a ∧
    ∃ h ∈ filter_valid_hotels qh a (some g), p = planFor g a f h

/-- The plan's total is at most the total of every candidate pair. -/
def MinimalTotal (g : Int) (flights : List Flight) (qh : List Hotel) (p : Plan) : Prop :=
  ∀ f ∈ flights, ∀ a, extract_arrival_datetime f = some a →
    ∀ h ∈ filter_valid_hotels qh a (some g), p.total_price ≤ pairTotal f h

/-- No flight of the list admits any timing-valid hotel of the candidate
set. -/
def NoCandidate (g : Int) (flights : List Flight) (qh : List Hotel) : Prop :=
  ∀ f ∈ flights, ∀ a, extract_arrival_datetime f = some a →
    filter_valid_hotels qh a (some g) = []

lemma considerHotel_spec (g a : Int) (f : Flight) (best : Option Plan) (h : Hotel) :
    ∃ p, considerHotel g a f best h = some p ∧
      (best = none → p = planFor g a f h) ∧
      (∀ b, best = some b → (p = b ∨ p = planFor g a f h) ∧ p.total_price ≤ b.total_price) ∧
      p.total_price ≤ pairTotal f h := by
  cases best with
  | none =>
    refine ⟨planFor g a f h, rfl, fun _ => rfl, ?_, le_refl _⟩
    intro b hb
    cases hb
  | some b =>
    by_cases hlt : pairTotal f h < b.total_price
    · refine ⟨planFor g a f h, by simp [considerHotel, hlt], ?_, ?_, le_refl _⟩
      · intro hc; cases hc
      · intro b' hb'
        injection hb' with hb'
        subst hb'
        exact ⟨Or.inr rfl, le_of_lt hlt⟩
    · refine ⟨b, by simp [considerHotel, hlt], ?_, ?_, not_lt.mp hlt⟩
      · intro hc; cases hc
      · intro b' hb'
        injection hb' with hb'
        subst hb'
        exact ⟨Or.inl rfl, le_refl _⟩

lemma foldl_considerHotel_spec (g a : Int) (f : Flight) (hs : List Hotel) :
    ∀ best : Option Plan,
      (hs.foldl (considerHotel g a f) best = none → best = none ∧ hs = []) ∧
      (∀ p, hs.foldl (considerHotel g a f) best = some p →
        (best = some p ∨ ∃ h ∈ hs, p = planFor g a f h) ∧
        (∀ b, best = some b → p.total_price ≤ b.total_price) ∧
        (∀ h ∈ hs, p.total_price ≤ pairTotal f h)) := by
  induction hs with
  | nil =>
    intro best
    constructor
    · intro hfold
      exact ⟨hfold, rfl⟩
    · intro p hp
      simp only [List.foldl_nil] at hp
      refine ⟨Or.inl hp, fun b hb => ?_, by simp⟩
      rw [hp] at hb
      injection hb with hb
      subst hb
      exact le_refl _
  | cons h t ih =>
    intro best
    obtain ⟨p', hp', hnone, hsome, hle⟩ := considerHotel_spec g a f best h
    constructor
    · intro hfold
      rw [List.foldl_cons, hp'] at hfold
      obtain ⟨hc, -⟩ := (ih (some p')).1 hfold
      cases hc
    · intro p hfold
      rw [List.foldl_cons, hp'] at hfold
      obtain ⟨hprov, hbest, hmin⟩ := (ih (some p')).2 p hfold
      have hple : p.total_price ≤ p'.total_price := hbest p' rfl
      refine ⟨?_, ?_, ?_⟩
      · rcases hprov with hpp | ⟨h2, hh2, hpe⟩
        · injection hpp with hpp
          subst hpp
          cases best with
          | none => exact Or.inr ⟨h, List.mem_cons_self h t, hnone rfl⟩
          | some b =>
            rcases (hsome b rfl).1 with h1 | h1
            · exact Or.inl (by rw [h1])
            · exact Or.inr ⟨h, List.mem_cons_self h t, h1⟩
        · exact Or.inr ⟨h2, List.mem_cons_of_mem h hh2, hpe⟩
      · intro b hb
        exact le_trans hple (hsome b hb).2
      · intro h2 hh2
        rcases List.mem_cons.mp hh2 with rfl | hh2t
        · exact le_trans hple hle
        · exact hmin h2 hh2t

lemma foldl_considerFlight_spec (g : Int) (qh : List Hotel) (fs : List Flight) :
    ∀ best : Option Plan,
      (fs.foldl (considerFlight g qh) best = none → best = none ∧ NoCandidate g fs qh) ∧
      (∀ p, fs.foldl (considerFlight g qh) best = some p →
        (best = some p ∨ IsCandidate g fs qh p) ∧
        (∀ b, best = some b → p.total_price ≤ b.total_price) ∧
        MinimalTotal g fs qh p) := by
  induction fs with
  | nil =>
    intro best
    constructor
    · intro hfold
      refine ⟨hfold, ?_⟩
      intro f hf
      cases hf
    · intro p hp
      simp only [List.foldl_nil] at hp
      refine ⟨Or.inl hp, fun b hb => ?_, ?_⟩
      · rw [hp] at hb
        injection hb with hb
        subst hb
        exact le_refl _
      · intro f hf
        cases hf
  | cons f t ih =>
    intro best
    cases hext : extract_arrival_datetime f with
    | none =>
      have hstep : considerFlight g qh best f = best := by
        unfold considerFlight
        rw [hext]
      constructor
      · intro hfold
        rw [List.foldl_cons, hstep] at hfold
        obtain ⟨h1, h2⟩ := (ih best).1 hfold
        refine ⟨h1, ?_⟩
        intro f' hf' a' ha'
        rcases List.mem_cons.mp hf' with rfl | hf't
        · rw [hext] at ha'
          cases ha'
        · exact h2 f' hf't a' ha'
      · intro p hfold
        rw [List.foldl_cons, hstep] at hfold
        obtain ⟨hprov, hbest, hmin⟩ := (ih best).2 p hfold
        refine ⟨?_, hbest, ?_⟩
        · rcases hprov with h1 | ⟨f', hf', rest⟩
          · exact Or.inl h1
          · exact Or.inr ⟨f', List.mem_cons_of_mem f hf', rest⟩
        · intro f' hf' a' ha'
          rcases List.mem_cons.mp hf' with rfl | hf't
          · rw [hext] at ha'
            cases ha'
          · exact hmin f' hf't a' ha'
    | some a =>
      have hstep : considerFlight g qh best f =
          (filter_valid_hotels qh a (some g)).foldl (considerHotel g a f) best := by
        unfold considerFlight
        rw [hext]
      constructor
      · intro hfold
        rw [List.foldl_cons, hstep] at hfold
        obtain ⟨h1, h2⟩ := (ih _).1 hfold
        obtain ⟨hb0, hfe⟩ := (foldl_considerHotel_spec g a f _ best).1 h1
        refine ⟨hb0, ?_⟩
        intro f' hf' a' ha'
        rcases List.mem_cons.mp hf' with rfl | hf't
        · rw [hext] at ha'
          injection ha' with ha'
          subst ha'
          exact hfe
        · exact h2 f' hf't a' ha'
      · intro p hfold
        rw [List.foldl_cons, hstep] at hfold
        cases hacc : (filter_valid_hotels qh a (some g)).foldl (considerHotel g a f) best with
        | none =>
          rw [hacc] at hfold
          obtain ⟨hb0, hfe⟩ := (foldl_considerHotel_spec g a f _ best).1 hacc
          obtain ⟨hprov, hbest, hmin⟩ := (ih none).2 p hfold
          refine ⟨?_, ?_, ?_⟩
          · rcases hprov with h1 | ⟨f', hf', rest⟩
            · cases h1
            · exact Or.inr ⟨f', List.mem_cons_of_mem f hf', rest⟩
          · intro b hb
            rw [hb0] at hb
            cases hb
          · intro f' hf' a' ha'
            rcases List.mem_cons.mp hf' with rfl | hf't
            · rw [hext] at ha'
              injection ha' with ha'
              subst ha'
              rw [hfe]
              intro h2 hh2
              cases hh2
            · exact hmin f' hf't a' ha'
        | some q =>
          rw [hacc] at hfold
          obtain ⟨hq_prov, hq_best, hq_min⟩ := (foldl_considerHotel_spec g a f _ best).2 q hacc
          obtain ⟨hprov, hbest, hmin⟩ := (ih (some q)).2 p hfold
          have hpq : p.total_price ≤ q.total_price := hbest q rfl
          refine ⟨?_, ?_, ?_⟩
          · rcases hprov with h1 | ⟨f', hf', rest⟩
            · injection h1 with h1
              subst h1
              rcases hq_prov with h2 | ⟨h3, hh3, hpe⟩
              · exact Or.inl h2
              · exact Or.inr ⟨f, List.mem_cons_self f t, a, hext, h3, hh3, hpe⟩
            · exact Or.inr ⟨f', List.mem_cons_of_mem f hf', rest⟩
          · intro b hb
            exact le_trans hpq (hq_best b hb)
          · intro f' hf' a' ha'
            rcases List.mem_cons.mp hf' with rfl | hf't
            · rw [hext] at ha'
              injection ha' with ha'
              subst ha'
              intro h2 hh2
              exact le_trans hpq (hq_min h2 hh2)
            · exact hmin f' hf't a' ha'

lemma foldl_considerFlight_none_of_noCandidate {g : Int} {qh : List Hotel}
    {fs : List Flight} (h : NoCandidate g fs qh) :
    fs.foldl (considerFlight g qh) none = none := by
  induction fs with
  | nil => rfl
  | cons f t ih =>
    have hstep : considerFlight g qh none f = none := by
      unfold considerFlight
      cases hext : extract_arrival_datetime f with
      | none => rfl
      | some a =>
        simp only [hext]
        rw [h f (List.mem_cons_self f t) a hext]
        rfl
    rw [List.foldl_cons, hstep]
    exact ih (fun f' hf' => h f' (List.mem_cons_of_mem f hf'))

lemma find_cheapest_plan_eq_foldl {flights : List Flight} {hotels : List Hotel}
    (gap : Option Int) (mo ml : ℚ) (hf : flights ≠ []) (hh : hotels ≠ []) :
    find_cheapest_plan flights hotels gap mo ml =
      flights.foldl
        (considerFlight (gap.getD TRAVEL_HOTEL_CHECKIN_GAP_HOURS)
          (qualityHotels hotels mo ml)) none := by
  simp only [find_cheapest_plan]
  rw [if_neg hf, if_neg hh]

/-- `find_cheapest_plan` returns `none` exactly when the flight list is
empty, the hotel list is empty, or no flight with a parseable arrival admits
a timing-valid hotel among the quality-ladder candidates. -/
lemma find_cheapest_plan_none_iff (flights : List Flight) (hotels : List Hotel)
    (gap : Option Int) (mo ml : ℚ) :
    find_cheapest_plan flights hotels gap mo ml = none ↔
      (flights = [] ∨ hotels = [] ∨
        NoCandidate (gap.getD TRAVEL_HOTEL_CHECKIN_GAP_HOURS) flights
          (qualityHotels hotels mo ml)) := by
  by_cases hf : flights = []
  · simp [find_cheapest_plan, hf]
  by_cases hh : hotels = []
  · simp [find_cheapest_plan, hf, hh]
  rw [find_cheapest_plan_eq_foldl gap mo ml hf hh]
  constructor
  · intro h
    exact Or.inr (Or.inr ((foldl_considerFlight_spec _ _ _ none).1 h).2)
  · rintro (h | h | h)
    · exact absurd h hf
    · exact absurd h hh
    · exact foldl_considerFlight_none_of_noCandidate h

/-- A returned plan is a candidate pair and is minimal among all candidate
pairs. -/
lemma find_cheapest_plan_some_spec {flights : List Flight} {hotels : List Hotel}
    {gap : Option Int} {mo ml : ℚ} {p : Plan}
    (h : find_cheapest_plan flights hotels gap mo ml = some p) :
    IsCandidate (gap.getD TRAVEL_HOTEL_CHECKIN_GAP_HOURS) flights
        (qualityHotels hotels mo ml) p ∧
      MinimalTotal (gap.getD TRAVEL_HOTEL_CHECKIN_GAP_HOURS) flights
        (qualityHotels hotels mo ml) p := by
  by_cases hf : flights = []
  · rw [hf] at h
    simp [find_cheapest_plan] at h
  by_cases hh : hotels = []
  · rw [hh] at h
    simp [find_cheapest_plan, hf] at h
  rw [find_cheapest_plan_eq_foldl gap mo ml hf hh] at h
  obtain ⟨hprov, -, hmin⟩ := (foldl_considerFlight_spec _ _ _ none).2 p h
  rcases hprov with h1 | h1
  · cases h1
  · exact ⟨h1, hmin⟩

/-! The quality ladder. -/

lemma qualityHotels_subset (hotels : List Hotel) (mo ml : ℚ) :
    qualityHotels hotels mo ml ⊆ hotels := by
  simp only [qualityHotels, filter_hotels_by_rating]
  split
  · exact fun x hx => List.mem_of_mem_filter hx
  · split
    · exact fun x hx => List.mem_of_mem_filter hx
    · split
      · exact fun x hx => List.mem_of_mem_filter hx
      · exact fun x hx => hx

lemma qualityHotels_ne_nil {hotels : List Hotel} (h : hotels ≠ []) (mo ml : ℚ) :
    qualityHotels hotels mo ml ≠ [] := by
  simp only [qualityHotels]
  split
  · rename_i hc
    exact hc
  · split
    · rename_i hc
      exact hc
    · split
      · rename_i hc
        exact hc
      · exact h

/-- A candidate pair forces `find_cheapest_plan` to return a plan. -/
lemma find_cheapest_plan_isSome_of_candidate {flights : List Flight}
    {hotels : List Hotel} {gap : Option Int} {mo ml : ℚ} {f : Flight} {a : Int}
    {h : Hotel} (hf : f ∈ flights) (ha : extract_arrival_datetime f = some a)
    (hq : h ∈ qualityHotels hotels mo ml)
    (hv : hotelIsValid h a (gap.getD TRAVEL_HOTEL_CHECKIN_GAP_HOURS) = true) :
    ∃ p, find_cheapest_plan flights hotels gap mo ml = some p := by
  cases e : find_cheapest_plan flights hotels gap mo ml with
  | some p => exact ⟨p, rfl⟩
  | none =>
    exfalso
    rw [find_cheapest_plan_none_iff] at e
    rcases e with e | e | e
    · rw [e] at hf
      cases hf
    · have hmem := qualityHotels_subset hotels mo ml hq
      rw [e] at hmem
      cases hmem
    · have hnil := e f hf a ha
      have : h ∈ filter_valid_hotels (qualityHotels hotels mo ml) a
          (some (gap.getD TRAVEL_HOTEL_CHECKIN_GAP_HOURS)) := by
        rw [mem_filter_valid_hotels]
        exact ⟨hq, by simpa using hv⟩
      rw [hnil] at this
      cases this

/-! Concrete offer records used by the spec's scenarios. -/

/-- Scenario 3 flight: price 500, arrival `2026-01-15 10:00`. -/
def s3flight : Flight := { price := some 500, arrival_time := some "2026-01-15 10:00" }

/-- Scenario 3 hotel 1: price 100, rating 4.0, location rating 4.2. -/
def s3hotel1 : Hotel :=
  { price := some 100, rating := some 4, location_rating := some 4.2,
    check_in_time := some "15:00" }

/-- Scenario 3 hotel 2: price 80, rating 3.0, no location rating. -/
def s3hotel2 : Hotel :=
  { price := some 80, rating := some 3, location_rating := some 0,
    check_in_time := some "15:00" }

/-- A low-rated hotel (3.5) whose explicit check-in date `2026-01-17` makes
it timing-invalid for a flight arriving on `2026-01-15`. -/
def lowHotelA : Hotel :=
  { price := some 100, rating := some 3.5, check_in_date := some "2026-01-17" }

/-- A very low-rated hotel (2.0) that is timing-valid for a flight arriving
`2026-01-15 10:00`. -/
def lowHotelB : Hotel :=
  { price := some 80, rating := some 2, check_in_time := some "15:00" }

/-- Scenario flight/hotel pair describing a two-night stay (check-in
`2026-01-15`, check-out `2026-01-17`): the hotel of the C1 counterexample. -/
def twoNightHotel : Hotel :=
  { price := some 100, rating := some 4, location_rating := some 4.2,
    check_in_date := some "2026-01-15", check_in_time := some "15:00" }

/-- A quality hotel whose explicit check-in date `2026-01-20` makes it
timing-invalid for a flight arriving `2026-01-15`. -/
def farHotel : Hotel :=
  { price := some 100, rating := some 4, location_rating := some 4.2,
    check_in_date := some "2026-01-20" }

/-- A hotel rated 3.5 — below the strict threshold but on the third ladder
rung — that is timing-valid for the scenario 3 flight. -/
def midHotel : Hotel :=
  { price := some 90, rating := some 3.5, check_in_time := some "15:00" }

/-- A flight whose arrival-time string parses under none of the three
formats. -/
def badFlight : Flight := { arrival_time := some "not a time" }

/-- A hotel whose check-in time string is unparseable (and mentions no
AM/PM), so the 15:00 default applies. -/
def badTimeHotel : Hotel :=
  { price := some 100, rating := some 4, check_in_time := some "garbage" }

/-- A flight with parseable arrival and no price field. -/
def noPriceFlight : Flight := { arrival_time := some "2026-01-15 10:00" }

/-- A quality hotel with no price field. -/
def noPriceHotel : Hotel :=
  { rating := some 4, location_rating := some 4.2, check_in_time := some "15:00" }

/-! Claim theorems. -/

/-- C2 (code bug evidence): in concrete scenario 1 — flight arrival
`2026-01-15 18:30` (day 739936, 66600 seconds), gap 2, traveler at the hotel
20:30 — the code KEEPS Hotel B (check-in `21:00`) as well as Hotel A
(check-in `15:00`): the disjunct `traveler_hotel_arrival <= midnight_cutoff`
of the same-day rule accepts Hotel B at 20:30 < 23:59, although the
function's own docstring states the conjunction `check_in_time <= arrival
AND arrival <= cutoff`, under which Hotel B would be rejected as the claim
says. -/
theorem C2_code_keeps_hotelB :
    filter_valid_hotels
        [{ check_in_time := some "15:00" }, { check_in_time := some "21:00" }]
        (combineDT (daysFromCivil 2026 1 15) 66600) (some 2) =
      [{ check_in_time := some "15:00" }, { check_in_time := some "21:00" }] ∧
    hotelIsValid { check_in_time := some "21:00" }
      (combineDT (daysFromCivil 2026 1 15) 66600) 2 = true := by
  exact ⟨by decide, by decide⟩

/-- C5: for every hotel (all of which have an established check-in instant),
arrival strictly after the check-in date is timing-valid exactly when the
delay is at most one day, and arrival strictly before the check-in date is
invalid; concretely (scenario 2) a flight arriving `2026-01-15 23:00` with
gap 3 — traveler `2026-01-16 02:00`, one day after the `2026-01-15` check-in
date — is valid. -/
theorem C5_next_day_rule :
    (∀ (hotel : Hotel) (a g c : Int), getHotelCheckinDatetime hotel a = some c →
      ((dateOf c < dateOf (travelerArrival a g) →
        (hotelIsValid hotel a g = true ↔
          dateOf (travelerArrival a g) - dateOf c ≤ 1)) ∧
       (dateOf (travelerArrival a g) < dateOf c → hotelIsValid hotel a g = false))) ∧
    ({ check_in_date := some "2026-01-15" } : Hotel) ∈
      filter_valid_hotels [{ check_in_date := some "2026-01-15" }]
        (combineDT (daysFromCivil 2026 1 15) 82800) (some 3) := by
  constructor
  · intro hotel a g c hc
    have hb := checkinTimeOf_bounds hotel
    have hcd : dateOf c = checkinDateOf hotel a := by
      injection hc with hc
      rw [← hc, dateOf_combineDT hb.1 (by omega)]
    rw [hcd]
    exact ⟨fun h => hotelIsValid_next_day hotel a g h,
      fun h => hotelIsValid_before hotel a g h⟩
  · decide

/-- Witness for C5 at scenario 2: the next-day rule instantiated at the
concrete flight and hotel. -/
theorem C5_next_day_rule_witness :
    (hotelIsValid { check_in_date := some "2026-01-15" }
        (combineDT (daysFromCivil 2026 1 15) 82800) 3 = true ↔
      dateOf (travelerArrival (combineDT (daysFromCivil 2026 1 15) 82800) 3) -
        dateOf (combineDT (daysFromCivil 2026 1 15) 54000) ≤ 1) :=
  (C5_next_day_rule.1 { check_in_date := some "2026-01-15" }
    (combineDT (daysFromCivil 2026 1 15) 82800) 3
    (combineDT (daysFromCivil 2026 1 15) 54000) (by decide)).1 (by decide)

/-- C9 counterexample: a hotel with completely missing check-in data still
receives a (defaulted) check-in instant — flight-arrival date at 15:00 — and
with gap 48 the timing rules EXCLUDE it, contradicting the claimed
unconditional inclusion. -/
theorem C9_counterexample :
    (({} : Hotel).check_in_date = none ∧ ({} : Hotel).check_in_time = none) ∧
    getHotelCheckinDatetime {} (combineDT (daysFromCivil 2026 1 15) 36000) =
      some (combineDT (daysFromCivil 2026 1 15) 54000) ∧
    ({} : Hotel) ∉ filter_valid_hotels [{}]
      (combineDT (daysFromCivil 2026 1 15) 36000) (some 48) := by
  exact ⟨⟨rfl, rfl⟩, by decide, by decide⟩

/-- C9 amended: `_get_hotel_checkin_datetime` always establishes a check-in
instant, defaulting missing data to the flight-arrival date at 15:00 — the
unconditional-inclusion branch for an unestablishable instant is therefore
unreachable — and, for a nonnegative gap, a hotel with missing check-in
fields is kept exactly when the traveler reaches the hotel at most one
calendar day after the flight-arrival date. -/
theorem C9_default_checkin (hotel : Hotel) (a g : Int)
    (hd : hotel.check_in_date = none) (ht : hotel.check_in_time = none)
    (hg : 0 ≤ g) :
    getHotelCheckinDatetime hotel a = some (combineDT (dateOf a) 54000) ∧
    (hotel ∈ filter_valid_hotels [hotel] a (some g) ↔
      dateOf (travelerArrival a g) ≤ dateOf a + 1) := by
  have hcd : checkinDateOf hotel a = dateOf a := by
    unfold checkinDateOf
    rw [hd]
  have hct : checkinTimeOf hotel = 54000 := by
    unfold checkinTimeOf
    rw [ht]
    rfl
  constructor
  · unfold getHotelCheckinDatetime
    rw [hcd, hct]
  · rw [mem_filter_valid_hotels]
    constructor
    · rintro ⟨-, hv⟩
      rw [Option.getD_some] at hv
      rw [hotelIsValid_iff_le hotel a g hg (le_of_eq hcd), hcd] at hv
      exact hv
    · intro hle
      refine ⟨List.mem_cons_self _ _, ?_⟩
      rw [Option.getD_some, hotelIsValid_iff_le hotel a g hg (le_of_eq hcd), hcd]
      exact hle

/-- Witness for C9 at a concrete empty-record hotel and gap 2. -/
theorem C9_default_checkin_witness :
    getHotelCheckinDatetime {} (combineDT (daysFromCivil 2026 1 15) 36000) =
      some (combineDT (dateOf (combineDT (daysFromCivil 2026 1 15) 36000)) 54000) ∧
    (({} : Hotel) ∈ filter_valid_hotels [{}]
        (combineDT (daysFromCivil 2026 1 15) 36000) (some 2) ↔
      dateOf (travelerArrival (combineDT (daysFromCivil 2026 1 15) 36000) 2) ≤
        dateOf (combineDT (daysFromCivil 2026 1 15) 36000) + 1) :=
  C9_default_checkin {} (combineDT (daysFromCivil 2026 1 15) 36000) 2 rfl rfl (by decide)

/-- C4 counterexample: a hotel with the explicit future check-in date
`2026-01-16` at `03:00`, against a flight arriving `2026-01-15 20:00`, is
invalid with gap 5 (traveler `01:00`, before check-in, past the midnight
cutoff) but VALID with the larger gap 8 (traveler `04:00`, after check-in):
growing the gap enlarged the valid set. -/
theorem C4_counterexample :
    (5 : Int) ≤ 8 ∧
    ({ check_in_date := some "2026-01-16", check_in_time := some "03:00" } : Hotel) ∈
      filter_valid_hotels
        [{ check_in_date := some "2026-01-16", check_in_time := some "03:00" }]
        (combineDT (daysFromCivil 2026 1 15) 72000) (some 8) ∧
    ({ check_in_date := some "2026-01-16", check_in_time := some "03:00" } : Hotel) ∉
      filter_valid_hotels
        [{ check_in_date := some "2026-01-16", check_in_time := some "03:00" }]
        (combineDT (daysFromCivil 2026 1 15) 72000) (some 5) := by
  exact ⟨by decide, by decide, by decide⟩

/-- C4 amended: for nonnegative gaps `g1 ≤ g2` and hotels whose established
check-in date is not after the flight-arrival date (in particular every
hotel without an explicit future check-in date), the set of hotels accepted
with gap `g2` is contained in the set accepted with gap `g1`. -/
theorem C4_gap_antitone (hotels : List Hotel) (a : Int) (g1 g2 : Int)
    (hg1 : 0 ≤ g1) (h12 : g1 ≤ g2)
    (hdates : ∀ h ∈ hotels, checkinDateOf h a ≤ dateOf a) :
    ∀ h ∈ filter_valid_hotels hotels a (some g2),
      h ∈ filter_valid_hotels hotels a (some g1) := by
  intro h hmem
  rw [mem_filter_valid_hotels] at hmem ⊢
  obtain ⟨hh, hv⟩ := hmem
  refine ⟨hh, ?_⟩
  rw [Option.getD_some] at hv ⊢
  have hd := hdates h hh
  rw [hotelIsValid_iff_le h a g2 (by omega) hd] at hv
  rw [hotelIsValid_iff_le h a g1 hg1 hd]
  have h1 : travelerArrival a g1 ≤ travelerArrival a g2 := by
    unfold travelerArrival
    omega
  have h2 := dateOf_mono h1
  omega

/-- Witness for C4: the scenario 1 hotel A stays valid when the gap shrinks
from 3 to 2. -/
theorem C4_gap_antitone_witness :
    ({ check_in_time := some "15:00" } : Hotel) ∈
      filter_valid_hotels [{ check_in_time := some "15:00" }]
        (combineDT (daysFromCivil 2026 1 15) 66600) (some 2) :=
  C4_gap_antitone [{ check_in_time := some "15:00" }]
    (combineDT (daysFromCivil 2026 1 15) 66600) 2 3 (by decide) (by decide)
    (by decide) { check_in_time := some "15:00" } (by decide)


/-- C6: the strict quality filter accepts a hotel (whose location rating is
nonnegative, per the 0-5 rating data model) exactly when its overall rating
meets the overall threshold and its location rating is 0 (unknown) or meets
the location threshold; and in concrete scenario 3 the filter keeps only
hotel 1 and the selected plan is flight + hotel 1 with total 600. -/
theorem C6_quality_filter :
    (∀ (hotel : Hotel) (mo ml : ℚ), 0 ≤ locationRatingOf hotel →
      (meetsRating hotel mo ml = true ↔
        (mo ≤ overallRatingOf hotel ∧
          (locationRatingOf hotel = 0 ∨ ml ≤ locationRatingOf hotel)))) ∧
    (filter_hotels_by_rating [s3hotel1, s3hotel2] MIN_OVERALL_RATING MIN_LOCATION_RATING =
        [s3hotel1] ∧
      find_cheapest_plan [s3flight] [s3hotel1, s3hotel2] none MIN_OVERALL_RATING
          MIN_LOCATION_RATING =
        some (planFor 2 (combineDT (daysFromCivil 2026 1 15) 36000) s3flight s3hotel1) ∧
      (planFor 2 (combineDT (daysFromCivil 2026 1 15) 36000) s3flight s3hotel1).total_price =
        600) := by
  refine ⟨?_, ?_, ?_, ?_⟩
  · intro hotel mo ml hl
    simp only [meetsRating]
    rcases lt_or_eq_of_le hl with hpos | hzero
    · rw [if_pos hpos]
      simp only [Bool.and_eq_true, decide_eq_true_eq]
      constructor
      · rintro ⟨h1, h2⟩
        exact ⟨h1, Or.inr h2⟩
      · rintro ⟨h1, h2 | h2⟩
        · exact absurd h2 (ne_of_gt hpos)
        · exact ⟨h1, h2⟩
    · rw [if_neg (by rw [← hzero]; exact lt_irrefl 0)]
      simp only [Bool.and_true, decide_eq_true_eq]
      exact ⟨fun h1 => ⟨h1, Or.inl hzero.symm⟩, fun h => h.1⟩
  · with_unfolding_all decide
  · have hq : qualityHotels [s3hotel1, s3hotel2] MIN_OVERALL_RATING MIN_LOCATION_RATING =
        [s3hotel1] := by with_unfolding_all decide
    have ha : extract_arrival_datetime s3flight =
        some (combineDT (daysFromCivil 2026 1 15) 36000) := by decide
    have hv : filter_valid_hotels [s3hotel1]
        (combineDT (daysFromCivil 2026 1 15) 36000) (some 2) = [s3hotel1] := by
      with_unfolding_all decide
    unfold find_cheapest_plan
    simp only [TRAVEL_HOTEL_CHECKIN_GAP_HOURS, Option.getD_none, hq, ha, hv, considerFlight]
    simp [ha, hv, considerFlight, considerHotel]
  · with_unfolding_all decide

/-- Witness for C6: the quality-filter characterization instantiated at the
scenario 3 hotel 1. -/
theorem C6_quality_filter_witness :
    meetsRating s3hotel1 MIN_OVERALL_RATING MIN_LOCATION_RATING = true ↔
      (MIN_OVERALL_RATING ≤ overallRatingOf s3hotel1 ∧
        (locationRatingOf s3hotel1 = 0 ∨ MIN_LOCATION_RATING ≤ locationRatingOf s3hotel1)) :=
  C6_quality_filter.1 s3hotel1 MIN_OVERALL_RATING MIN_LOCATION_RATING
    (by with_unfolding_all decide)

/-- C1 counterexample: for the two-night stay of `twoNightHotel` (nights =
2), the optimizer's reported total is 600 = flight 500 + one night 100, not
`flight.price + hotel.price × nights` = 700: `find_cheapest_plan` never
multiplies the hotel price by the number of nights. -/
theorem C1_counterexample :
    (find_cheapest_plan [s3flight] [twoNightHotel] none MIN_OVERALL_RATING
        MIN_LOCATION_RATING).map Plan.total_price = some 600 ∧
    (600 : ℚ) ≠ 500 + 100 * 2 := by
  constructor
  · have hq : qualityHotels [twoNightHotel] MIN_OVERALL_RATING MIN_LOCATION_RATING =
        [twoNightHotel] := by with_unfolding_all decide
    have ha : extract_arrival_datetime s3flight =
        some (combineDT (daysFromCivil 2026 1 15) 36000) := by decide
    have hv : filter_valid_hotels [twoNightHotel]
        (combineDT (daysFromCivil 2026 1 15) 36000) (some 2) = [twoNightHotel] := by
      with_unfolding_all decide
    have hfind : find_cheapest_plan [s3flight] [twoNightHotel] none MIN_OVERALL_RATING
        MIN_LOCATION_RATING =
        some (planFor 2 (combineDT (daysFromCivil 2026 1 15) 36000) s3flight twoNightHotel) := by
      unfold find_cheapest_plan
      simp only [TRAVEL_HOTEL_CHECKIN_GAP_HOURS, Option.getD_none, hq, ha, hv, considerFlight]
      simp [ha, hv, considerFlight, considerHotel]
    rw [hfind]
    with_unfolding_all decide
  · with_unfolding_all decide

/-- C1 amended: whenever `find_cheapest_plan` returns a plan, its
`total_price` is flight price + hotel price, each missing price counted as 0
and the hotel price counted ONCE (no nights multiplier); the plan is a
candidate pair — a flight of the list with parseable arrival and a hotel of
the quality-ladder candidate set that is timing-valid for it — and its total
is minimal over all candidate pairs; and when no (flight, hotel) pair at all
is timing-valid, the result is `none`. -/
theorem C1_cheapest_pair (flights : List Flight) (hotels : List Hotel)
    (gap : Option Int) (mo ml : ℚ) :
    (∀ p, find_cheapest_plan flights hotels gap mo ml = some p →
      p.total_price = p.flight.price.getD 0 + p.hotel.price.getD 0 ∧
      IsCandidate (gap.getD TRAVEL_HOTEL_CHECKIN_GAP_HOURS) flights
        (qualityHotels hotels mo ml) p ∧
      MinimalTotal (gap.getD TRAVEL_HOTEL_CHECKIN_GAP_HOURS) flights
        (qualityHotels hotels mo ml) p) ∧
    ((∀ f ∈ flights, ∀ a, extract_arrival_datetime f = some a →
        ∀ h ∈ hotels, hotelIsValid h a (gap.getD TRAVEL_HOTEL_CHECKIN_GAP_HOURS) = false) →
      find_cheapest_plan flights hotels gap mo ml = none) := by
  constructor
  · intro p hp
    obtain ⟨hc, hm⟩ := find_cheapest_plan_some_spec hp
    refine ⟨?_, hc, hm⟩
    obtain ⟨f, hf, a, ha, h, hh, rfl⟩ := hc
    rfl
  · intro hall
    rw [find_cheapest_plan_none_iff]
    refine Or.inr (Or.inr ?_)
    intro f hf a ha
    rw [List.eq_nil_iff_forall_not_mem]
    intro h hmem
    rw [mem_filter_valid_hotels] at hmem
    obtain ⟨hq, hv⟩ := hmem
    have hfalse := hall f hf a ha h (qualityHotels_subset hotels mo ml hq)
    rw [Option.getD_some] at hv
    rw [hfalse] at hv
    cases hv

/-- Witness for C1: with the only hotel timing-invalid (explicit check-in
date far in the future), the optimizer returns the no-plan value. -/
theorem C1_cheapest_pair_witness :
    find_cheapest_plan [s3flight] [farHotel] none MIN_OVERALL_RATING
      MIN_LOCATION_RATING = none :=
  (C1_cheapest_pair [s3flight] [farHotel] none MIN_OVERALL_RATING MIN_LOCATION_RATING).2 (by
    intro f hf a ha h hh
    have hf0 : f = s3flight := by
      rcases List.mem_cons.mp hf with rfl | h0
      · rfl
      · cases h0
    subst hf0
    have ha0 : extract_arrival_datetime s3flight =
        some (combineDT (daysFromCivil 2026 1 15) 36000) := by decide
    rw [ha0] at ha
    injection ha with ha
    subst ha
    have hh0 : h = farHotel := by
      rcases List.mem_cons.mp hh with rfl | h0
      · rfl
      · cases h0
    subst hh0
    decide)

/-- C3 counterexample: both hotels are rated below `MIN_OVERALL_RATING`, the
flight has a parseable arrival, and `lowHotelB` of the unfiltered list is
timing-valid for it, yet `find_cheapest_plan` returns `none`: the ladder
settles on the rung of hotels rated at least 3.0 — here only the
timing-invalid `lowHotelA` — and never reaches the unfiltered set. -/
theorem C3_counterexample :
    (overallRatingOf lowHotelA < MIN_OVERALL_RATING ∧
      overallRatingOf lowHotelB < MIN_OVERALL_RATING) ∧
    extract_arrival_datetime s3flight =
      some (combineDT (daysFromCivil 2026 1 15) 36000) ∧
    lowHotelB ∈ filter_valid_hotels [lowHotelA, lowHotelB]
      (combineDT (daysFromCivil 2026 1 15) 36000) (some 2) ∧
    find_cheapest_plan [s3flight] [lowHotelA, lowHotelB] (some 2) MIN_OVERALL_RATING
      MIN_LOCATION_RATING = none := by
  refine ⟨⟨?_, ?_⟩, by decide, ?_, ?_⟩
  · with_unfolding_all decide
  · with_unfolding_all decide
  · with_unfolding_all decide
  · have hq : qualityHotels [lowHotelA, lowHotelB] MIN_OVERALL_RATING MIN_LOCATION_RATING =
        [lowHotelA] := by with_unfolding_all decide
    have ha : extract_arrival_datetime s3flight =
        some (combineDT (daysFromCivil 2026 1 15) 36000) := by decide
    have hv : filter_valid_hotels [lowHotelA]
        (combineDT (daysFromCivil 2026 1 15) 36000) (some 2) = [] := by
      with_unfolding_all decide
    unfold find_cheapest_plan
    simp only [Option.getD_some, hq, ha, hv, considerFlight]
    simp [ha, hv, considerFlight, considerHotel]

/-- C3 amended: when every hotel is rated below the overall threshold, a
flight with parseable arrival together with a timing-valid hotel of the
LADDER-FINAL candidate set (not merely of the unfiltered list) forces
`find_cheapest_plan` to return a plan. -/
theorem C3_rating_ladder (flights : List Flight) (hotels : List Hotel)
    (gap : Option Int) (mo ml : ℚ) (f : Flight) (a : Int) (h : Hotel)
    (hall : ∀ h2 ∈ hotels, overallRatingOf h2 < mo)
    (hf : f ∈ flights) (ha : extract_arrival_datetime f = some a)
    (hq : h ∈ qualityHotels hotels mo ml)
    (hv : hotelIsValid h a (gap.getD TRAVEL_HOTEL_CHECKIN_GAP_HOURS) = true) :
    ∃ p, find_cheapest_plan flights hotels gap mo ml = some p :=
  find_cheapest_plan_isSome_of_candidate hf ha hq hv

/-- Witness for C3: one hotel rated 3.5 (below 3.7, on the 3.0 rung) and
timing-valid yields a plan. -/
theorem C3_rating_ladder_witness :
    ∃ p, find_cheapest_plan [s3flight] [midHotel] none MIN_OVERALL_RATING
      MIN_LOCATION_RATING = some p :=
  C3_rating_ladder [s3flight] [midHotel] none MIN_OVERALL_RATING MIN_LOCATION_RATING
    s3flight (combineDT (daysFromCivil 2026 1 15) 36000) midHotel
    (by with_unfolding_all decide) (List.mem_cons_self _ _) (by decide)
    (by with_unfolding_all decide) (by decide)


/-- C7 amended: `find_cheapest_plan` returns the single no-plan value `none`
exactly when the flight list is empty, the hotel list is empty, or no flight
with parseable arrival admits a timing-valid hotel among the quality-ladder
candidates; in particular an empty hotel list yields `none` regardless of
the flights, and no other failure value exists. -/
theorem C7_none_cases (flights : List Flight) (hotels : List Hotel)
    (gap : Option Int) (mo ml : ℚ) :
    (find_cheapest_plan flights hotels gap mo ml = none ↔
      (flights = [] ∨ hotels = [] ∨
        NoCandidate (gap.getD TRAVEL_HOTEL_CHECKIN_GAP_HOURS) flights
          (qualityHotels hotels mo ml))) ∧
    find_cheapest_plan flights [] gap mo ml = none := by
  refine ⟨find_cheapest_plan_none_iff flights hotels gap mo ml, ?_⟩
  rw [find_cheapest_plan_none_iff]
  exact Or.inr (Or.inl rfl)

/-- C7 counterexample: nonempty flight and hotel lists with a timing-valid
(flight, hotel) pair — `lowHotelB` — for which `find_cheapest_plan`
nonetheless returns `none`, because the quality ladder settles on the
timing-invalid `lowHotelA`: `none` is NOT returned only in the claim's three
cases. -/
theorem C7_counterexample :
    ([s3flight] ≠ ([] : List Flight)) ∧ ([lowHotelA, lowHotelB] ≠ ([] : List Hotel)) ∧
    (∃ a, extract_arrival_datetime s3flight = some a ∧
      hotelIsValid lowHotelB a 2 = true) ∧
    find_cheapest_plan [s3flight] [lowHotelA, lowHotelB] (some 2) MIN_OVERALL_RATING
      MIN_LOCATION_RATING = none := by
  refine ⟨by simp, by simp, ⟨combineDT (daysFromCivil 2026 1 15) 36000, by decide, by decide⟩, ?_⟩
  have hq : qualityHotels [lowHotelA, lowHotelB] MIN_OVERALL_RATING MIN_LOCATION_RATING =
      [lowHotelA] := by with_unfolding_all decide
  have ha : extract_arrival_datetime s3flight =
      some (combineDT (daysFromCivil 2026 1 15) 36000) := by decide
  have hv : filter_valid_hotels [lowHotelA]
      (combineDT (daysFromCivil 2026 1 15) 36000) (some 2) = [] := by
    with_unfolding_all decide
  unfold find_cheapest_plan
  simp only [Option.getD_some, hq, ha, hv, considerFlight]
  simp [ha, hv, considerFlight, considerHotel]

/-- C8 counterexample: an offer with a malformed field is NOT excluded: the
hotel whose check-in time is the unparseable string `"garbage"` is validated
with the 15:00 default and even becomes the selected plan's hotel. -/
theorem C8_counterexample :
    containsAMPM "garbage" = false ∧ parseTimeHM "garbage" = none ∧
    (find_cheapest_plan [s3flight] [badTimeHotel] none MIN_OVERALL_RATING
        MIN_LOCATION_RATING).map Plan.hotel = some badTimeHotel := by
  refine ⟨by decide, by decide, ?_⟩
  have hq : qualityHotels [badTimeHotel] MIN_OVERALL_RATING MIN_LOCATION_RATING =
      [badTimeHotel] := by with_unfolding_all decide
  have ha : extract_arrival_datetime s3flight =
      some (combineDT (daysFromCivil 2026 1 15) 36000) := by decide
  have hv : filter_valid_hotels [badTimeHotel]
      (combineDT (daysFromCivil 2026 1 15) 36000) (some 2) = [badTimeHotel] := by
    with_unfolding_all decide
  have hfind : find_cheapest_plan [s3flight] [badTimeHotel] none MIN_OVERALL_RATING
      MIN_LOCATION_RATING =
      some (planFor 2 (combineDT (daysFromCivil 2026 1 15) 36000) s3flight badTimeHotel) := by
    unfold find_cheapest_plan
    simp only [TRAVEL_HOTEL_CHECKIN_GAP_HOURS, Option.getD_none, hq, ha, hv, considerFlight]
    simp [ha, hv, considerFlight, considerHotel]
  rw [hfind]
  rfl

/-- C8 amended: within the typed model (string time fields, rational
prices), `find_cheapest_plan` is total and a flight whose arrival time does
not parse is skipped — removing it never changes the result — while a hotel
with an unparseable, AM/PM-free check-in time is NOT excluded but validated
with the 15:00 default.  (A Python-level non-string field value, e.g. an
integer `arrival_time`, raises `TypeError` and is outside this model.) -/
theorem C8_bad_record_policy (f : Flight) (fs1 fs2 : List Flight)
    (hotels : List Hotel) (gap : Option Int) (mo ml : ℚ)
    (hbad : extract_arrival_datetime f = none) :
    find_cheapest_plan (fs1 ++ f :: fs2) hotels gap mo ml =
      find_cheapest_plan (fs1 ++ fs2) hotels gap mo ml ∧
    (∀ (h : Hotel) (s : String), h.check_in_time = some s →
      containsAMPM s = false → parseTimeHM s = none → checkinTimeOf h = 54000) := by
  constructor
  · by_cases hh : hotels = []
    · subst hh
      have e1 : find_cheapest_plan (fs1 ++ f :: fs2) [] gap mo ml = none := by
        rw [find_cheapest_plan_none_iff]
        exact Or.inr (Or.inl rfl)
      have e2 : find_cheapest_plan (fs1 ++ fs2) [] gap mo ml = none := by
        rw [find_cheapest_plan_none_iff]
        exact Or.inr (Or.inl rfl)
      rw [e1, e2]
    · by_cases h0 : fs1 ++ fs2 = []
      · obtain ⟨rfl, rfl⟩ := List.append_eq_nil.mp h0
        have e2 : find_cheapest_plan (([] : List Flight) ++ []) hotels gap mo ml = none := by
          rw [find_cheapest_plan_none_iff]
          exact Or.inl rfl
        rw [e2, find_cheapest_plan_eq_foldl gap mo ml (by simp) hh]
        simp only [List.nil_append, List.foldl_cons, List.foldl_nil]
        unfold considerFlight
        rw [hbad]
      · rw [find_cheapest_plan_eq_foldl gap mo ml (by simp) hh,
          find_cheapest_plan_eq_foldl gap mo ml h0 hh]
        rw [List.foldl_append, List.foldl_append, List.foldl_cons]
        have hid : ∀ acc : Option Plan,
            considerFlight (gap.getD TRAVEL_HOTEL_CHECKIN_GAP_HOURS)
              (qualityHotels hotels mo ml) acc f = acc := by
          intro acc
          unfold considerFlight
          rw [hbad]
        rw [hid]
  · intro h s hs hampm hhm
    unfold checkinTimeOf
    rw [hs]
    simp [hampm, hhm]

/-- Witness for C8: dropping the unparseable `badFlight` from the flight
list leaves the result unchanged. -/
theorem C8_bad_record_policy_witness :
    find_cheapest_plan ([] ++ badFlight :: [s3flight]) [s3hotel1] none MIN_OVERALL_RATING
        MIN_LOCATION_RATING =
      find_cheapest_plan ([] ++ [s3flight]) [s3hotel1] none MIN_OVERALL_RATING
        MIN_LOCATION_RATING :=
  (C8_bad_record_policy badFlight [] [s3flight] [s3hotel1] none MIN_OVERALL_RATING
    MIN_LOCATION_RATING (by decide)).1

/-- C10 (implicit): a missing or `None` price contributes 0 to a pair's
total, so whenever all present prices are nonnegative and some
quality-ladder, timing-valid pair has BOTH prices missing, the returned
plan's total is exactly 0 — price-less offers dominate the minimisation. -/
theorem C10_missing_price_zero (flights : List Flight) (hotels : List Hotel)
    (gap : Option Int) (mo ml : ℚ) (f : Flight) (a : Int) (h : Hotel)
    (hfp : ∀ f2 ∈ flights, ∀ q, f2.price = some q → 0 ≤ q)
    (hhp : ∀ h2 ∈ hotels, ∀ q, h2.price = some q → 0 ≤ q)
    (hf : f ∈ flights) (ha : extract_arrival_datetime f = some a)
    (hq : h ∈ qualityHotels hotels mo ml)
    (hv : hotelIsValid h a (gap.getD TRAVEL_HOTEL_CHECKIN_GAP_HOURS) = true)
    (hfn : f.price = none) (hhn : h.price = none) :
    ∃ p, find_cheapest_plan flights hotels gap mo ml = some p ∧ p.total_price = 0 := by
  obtain ⟨p, hp⟩ := find_cheapest_plan_isSome_of_candidate hf ha hq hv
  obtain ⟨hc, hm⟩ := find_cheapest_plan_some_spec hp
  refine ⟨p, hp, le_antisymm ?_ ?_⟩
  · have hmem : h ∈ filter_valid_hotels (qualityHotels hotels mo ml) a
        (some (gap.getD TRAVEL_HOTEL_CHECKIN_GAP_HOURS)) := by
      rw [mem_filter_valid_hotels]
      exact ⟨hq, by simpa using hv⟩
    have hub := hm f hf a ha h hmem
    unfold pairTotal at hub
    rw [hfn, hhn] at hub
    simpa using hub
  · obtain ⟨f2, hf2, a2, ha2, h2, hh2, rfl⟩ := hc
    have h2mem : h2 ∈ hotels :=
      qualityHotels_subset hotels mo ml (mem_filter_valid_hotels.mp hh2).1
    have hf2p : 0 ≤ f2.price.getD 0 := by
      cases e : f2.price with
      | none => simp
      | some q => simpa [e] using hfp f2 hf2 q e
    have hh2p : 0 ≤ h2.price.getD 0 := by
      cases e : h2.price with
      | none => simp
      | some q => simpa [e] using hhp h2 h2mem q e
    show (0 : ℚ) ≤ pairTotal f2 h2
    unfold pairTotal
    exact add_nonneg hf2p hh2p


/-- Witness for C10: a price-less flight and price-less quality hotel yield
a plan of total 0. -/
theorem C10_missing_price_zero_witness :
    ∃ p, find_cheapest_plan [noPriceFlight] [noPriceHotel] none MIN_OVERALL_RATING
      MIN_LOCATION_RATING = some p ∧ p.total_price = 0 :=
  C10_missing_price_zero [noPriceFlight] [noPriceHotel] none MIN_OVERALL_RATING
    MIN_LOCATION_RATING noPriceFlight (combineDT (daysFromCivil 2026 1 15) 36000)
    noPriceHotel
    (by
      intro f2 hf2 q hq2
      rcases List.mem_cons.mp hf2 with rfl | h0
      · rw [show noPriceFlight.price = none from rfl] at hq2
        cases hq2
      · cases h0)
    (by
      intro h2 hh2 q hq2
      rcases List.mem_cons.mp hh2 with rfl | h0
      · rw [show noPriceHotel.price = none from rfl] at hq2
        cases hq2
      · cases h0)
    (List.mem_cons_self _ _) (by decide) (by with_unfolding_all decide) (by decide)
    rfl rfl

end TravelLogic
